import Mathlib

/-!
Shallow embedding of the infinite-canvas editor found in
src/components/features/InfiniteCanvasTab.tsx.

Numbers are modelled as rationals (the source uses JS doubles; every claim
here is about exact arithmetic, sign tests and comparisons on small values).
JS `Set` is modelled as `Finset String`, the item array as `List CanvasItem`.
The random id generator `Math.random().toString(36).substr(2, 9)` is
modelled by passing the sampled id strings as explicit arguments.
-/

namespace InfiniteCanvas

/-- Source: `type ModelType = flux | sdxl`. -/
inductive ModelType where
  | flux
  | sdxl
deriving DecidableEq

/-- Source: the `mode: input | result` field of a generator node. -/
inductive GenMode where
  | inputMode
  | resultMode
deriving DecidableEq

/-- Source: the fields of `ImageItem` beyond `BaseItem` (`src` plus the
transient edit-session fields, which are optional in TS). -/
structure ImageData where
  src : String
  editPrompt : Option String
  isEditing : Bool
  editProgress : Option ℚ
deriving DecidableEq

/-- Source: the `data` record of `GeneratorItem`. -/
structure GenData where
  model : ModelType
  prompt : String
  negPrompt : String
  width : ℚ
  height : ℚ
  steps : ℚ
  cfg : ℚ
  isGenerating : Bool
  progress : ℚ
  resultImage : Option String
  mode : GenMode
  editPrompt : Option String
  isEditing : Bool
  editProgress : Option ℚ
deriving DecidableEq

/-- Source: the `data` record of `EditorItem`. -/
structure EdData where
  targetId : Option String
  prompt : String
  steps : ℚ
  cfg : ℚ
  isGenerating : Bool
  progress : ℚ
deriving DecidableEq

/-- The tagged union `CanvasItem = ImageItem | GeneratorItem | EditorItem`,
with the variant payload gathered in one sum. -/
inductive ItemData where
  | image : ImageData → ItemData
  | generator : GenData → ItemData
  | editor : EdData → ItemData
deriving DecidableEq

/-- Source: `BaseItem` common fields plus the variant payload. -/
structure CanvasItem where
  id : String
  x : ℚ
  y : ℚ
  width : ℚ
  height : ℚ
  zIndex : Int
  parentId : Option String
  data : ItemData
deriving DecidableEq

/-- Source: `interface ViewState (x, y, scale)`. -/
structure ViewState where
  x : ℚ
  y : ℚ
  scale : ℚ
deriving DecidableEq

/-- The component state the claims are about: the item array, the z-order
counter `topZ`, the selection set, the active item and the clipboard. -/
structure CanvasState where
  items : List CanvasItem
  topZ : Int
  selectedIds : Finset String
  activeItemId : Option String
  view : ViewState
  clipboard : List CanvasItem
deriving DecidableEq

/-- Source: `items.find(i => i.id === itemId)`. -/
def findItem (items : List CanvasItem) (id : String) : Option CanvasItem :=
  items.find? (fun it => it.id == id)

-- ### Viewport

/-- World coordinates of a screen point under the current view transform:
`(p - pan) / scale`, as computed throughout the source. -/
def toWorld (v : ViewState) (px py : ℚ) : ℚ × ℚ :=
  ((px - v.x) / v.scale, (py - v.y) / v.scale)

/-- Source: `handleWheel` (lines 256-276). The mouse position is already
relative to the container rect. -/
def handleWheel (v : ViewState) (mouseX mouseY deltaY : ℚ) : ViewState :=
  let scaleAmount : ℚ := -deltaY * (1 / 1000)
  let newScale : ℚ := min (max (1 / 10) (v.scale * (1 + scaleAmount))) 5
  let mouseWorldBeforeX := (mouseX - v.x) / v.scale
  let mouseWorldBeforeY := (mouseY - v.y) / v.scale
  { x := mouseX - mouseWorldBeforeX * newScale
    y := mouseY - mouseWorldBeforeY * newScale
    scale := newScale }

/-- Source: the zoom-out button, `scale := max (scale / 1.2) 0.1` with pan
untouched. -/
def zoomOutBtn (v : ViewState) : ViewState :=
  { v with scale := max (v.scale / (12 / 10)) (1 / 10) }

/-- Source: the zoom-in button, `scale := min (scale * 1.2) 5` with pan
untouched. -/
def zoomInBtn (v : ViewState) : ViewState :=
  { v with scale := min (v.scale * (12 / 10)) 5 }

/-- Source: the reset button, `setView (x 0, y 0, scale 1)`. -/
def resetBtn (_v : ViewState) : ViewState :=
  { x := 0, y := 0, scale := 1 }

/-- Source: canvas pan during `handleMouseMove` in canvas drag mode:
pan plus incremental screen delta. -/
def panMove (v : ViewState) (dx dy : ℚ) : ViewState :=
  { v with x := v.x + dx, y := v.y + dy }

-- ### Item store updates

/-- Source: `updateItemData(id, partial)` merges a patch into `item.data` of
the item with the given id. The TS spread acts on the fields of the data
record; each call site is rendered here as a typed patch on the variants
that carry the patched fields (call sites only target items of those
variants, and an item never changes variant). -/
def updateItemData (id : String) (patch : ItemData → ItemData)
    (items : List CanvasItem) : List CanvasItem :=
  items.map (fun it => if it.id == id then { it with data := patch it.data } else it)

/-- Source: `updateImageItem(id, partial)`; it additionally checks
`item.type === image`. -/
def updateImageItem (id : String) (patch : ImageData → ImageData)
    (items : List CanvasItem) : List CanvasItem :=
  items.map (fun it =>
    match it.data with
    | .image d => if it.id == id then { it with data := .image (patch d) } else it
    | _ => it)

/-- Source: `removeItem` — filter the item out, clear `activeItemId` if it
pointed at it, and delete it from the selection set. -/
def removeItem (id : String) (st : CanvasState) : CanvasState :=
  { st with
    items := st.items.filter (fun i => ¬ (i.id == id))
    activeItemId := if st.activeItemId = some id then none else st.activeItemId
    selectedIds := st.selectedIds.erase id }

/-- Source: the Delete/Backspace shortcut. `inField` models
`e.target.matches(input, textarea)`. -/
def deleteSelected (inField : Bool) (st : CanvasState) : CanvasState :=
  if st.selectedIds.Nonempty then
    if inField then st
    else
      { st with
        items := st.items.filter (fun i => i.id ∉ st.selectedIds)
        selectedIds := ∅
        activeItemId := none }
  else st

/-- Source: the Ctrl+C shortcut — snapshot the selected items into the
clipboard when the selection is nonempty. -/
def copySelected (st : CanvasState) : CanvasState :=
  if st.selectedIds.Nonempty then
    { st with clipboard := st.items.filter (fun i => i.id ∈ st.selectedIds) }
  else st

-- ### Selection and drag

/-- Source: `handleItemMouseDown` (lines 429-463): bring the item to the
front, then run the selection logic for shift / already-selected cases. -/
def handleItemMouseDown (shiftKey : Bool) (id : String) (st : CanvasState) :
    CanvasState :=
  let newZ := st.topZ + 1
  let items := st.items.map (fun i => if i.id == id then { i with zIndex := newZ } else i)
  if shiftKey then
    if id ∈ st.selectedIds then
      { st with
        items := items
        topZ := newZ
        selectedIds := st.selectedIds.erase id
        activeItemId := if st.activeItemId = some id then none else st.activeItemId }
    else
      { st with
        items := items
        topZ := newZ
        selectedIds := insert id st.selectedIds
        activeItemId := some id }
  else
    if id ∉ st.selectedIds then
      { st with
        items := items
        topZ := newZ
        selectedIds := {id}
        activeItemId := some id }
    else
      { st with items := items, topZ := newZ, activeItemId := some id }

/-- Source: `handleMouseDown` on the canvas background. With the pan trigger
(space or middle button) nothing but the drag mode changes; otherwise a
selection box starts, and without shift the selection is cleared. -/
def handleBackgroundMouseDown (panTrigger shiftKey : Bool) (st : CanvasState) :
    CanvasState :=
  if panTrigger then st
  else if shiftKey then st
  else { st with selectedIds := ∅, activeItemId := none }

/-- Source: `handleMouseMove` in drag mode `item`: every selected item moves
by the incremental screen delta divided by the scale. -/
def itemDragMove (dx dy : ℚ) (st : CanvasState) : CanvasState :=
  { st with
    items := st.items.map (fun item =>
      if item.id ∈ st.selectedIds then
        { item with
          x := item.x + dx / st.view.scale
          y := item.y + dy / st.view.scale }
      else item) }

/-- Source: `handleMouseMove` in drag mode `selection` (lines 342-375): the
screen-space box is converted to world space and the selection becomes the
set of items whose bounds intersect it, unioned with the previous selection
when shift is held. `startX startY curX curY` are relative to the container
rect, as `selectionBox` stores them. -/
def rubberBandMove (shiftKey : Bool) (startX startY curX curY : ℚ)
    (st : CanvasState) : CanvasState :=
  let boxX := min startX curX
  let boxY := min startY curY
  let boxW := |curX - startX|
  let boxH := |curY - startY|
  let worldX := (boxX - st.view.x) / st.view.scale
  let worldY := (boxY - st.view.y) / st.view.scale
  let worldW := boxW / st.view.scale
  let worldH := boxH / st.view.scale
  let base : Finset String := if shiftKey then st.selectedIds else ∅
  let hits := (st.items.filter (fun item =>
      decide (item.x < worldX + worldW) && decide (item.x + item.width > worldX) &&
      decide (item.y < worldY + worldH) && decide (item.y + item.height > worldY))).map
      CanvasItem.id
  { st with selectedIds := base ∪ hits.toFinset }

-- ### Clipboard paste

/-- Bounding-box minimum of the x coordinates. The source folds from
`Infinity`; for a nonempty list that equals folding from the head, and the
empty case is unreachable behind the early return of `pasteItems`. -/
def bboxMinX : List CanvasItem → ℚ
  | [] => 0
  | it :: rest => rest.foldl (fun m i => min m i.x) it.x

/-- Bounding-box minimum of the y coordinates (see `bboxMinX`). -/
def bboxMinY : List CanvasItem → ℚ
  | [] => 0
  | it :: rest => rest.foldl (fun m i => min m i.y) it.y

/-- Bounding-box maximum of `x + width` (see `bboxMinX`). -/
def bboxMaxX : List CanvasItem → ℚ
  | [] => 0
  | it :: rest => rest.foldl (fun m i => max m (i.x + i.width)) (it.x + it.width)

/-- Bounding-box maximum of `y + height` (see `bboxMinX`). -/
def bboxMaxY : List CanvasItem → ℚ
  | [] => 0
  | it :: rest => rest.foldl (fun m i => max m (i.y + i.height)) (it.y + it.height)

/-- One cloned item of the paste first pass: fresh id, translated position,
the z counter value, parent detached, `data` deep-copied unchanged. -/
def pasteClone (dx dy : ℚ) (it : CanvasItem) (newId : String) (z : Int) :
    CanvasItem :=
  { it with id := newId, x := it.x + dx, y := it.y + dy, zIndex := z, parentId := none }

/-- The paste first pass over the (clipboard item, fresh id) pairs, with the
mutable `maxZ` counter threaded through: the i-th clone gets `z + i + 1`. -/
def pasteClones (dx dy : ℚ) : List (CanvasItem × String) → Int → List CanvasItem
  | [], _ => []
  | (it, newId) :: rest, z =>
      pasteClone dx dy it newId (z + 1) :: pasteClones dx dy rest (z + 1)

/-- Lookup in the `newIdsMap`. A JS `Map` built by repeated `set` keeps the
last write for a key, so later pairs take precedence. -/
def mapGet : List (String × String) → String → Option String
  | [], _ => none
  | (k, v) :: rest, q =>
      match mapGet rest q with
      | some r => some r
      | none => if q == k then some v else none

/-- The paste second pass on one pasted item: for an editor, rewrite
`targetId` through the id map when the old target was pasted too, else set
it to `null`. A `None` target is falsy in the source and also becomes
`null`. -/
def remapEditor (m : List (String × String)) (it : CanvasItem) : CanvasItem :=
  match it.data with
  | .editor e =>
      match e.targetId with
      | some t =>
          match mapGet m t with
          | some newId => { it with data := .editor { e with targetId := some newId } }
          | none => { it with data := .editor { e with targetId := none } }
      | none => { it with data := .editor { e with targetId := none } }
  | _ => it

/-- Steps 1-3 of `pasteItems`: the snapshot bounding-box center, the target
(the mouse world position when the client coordinates are positive, else
center plus the fixed 20-unit offset), and the resulting translation
vector. -/
def pasteTranslation (clipboard : List CanvasItem) (view : ViewState)
    (rectLeft rectTop mouseX mouseY : ℚ) : ℚ × ℚ :=
  let centerX := (bboxMinX clipboard + bboxMaxX clipboard) / 2
  let centerY := (bboxMinY clipboard + bboxMaxY clipboard) / 2
  let target : ℚ × ℚ :=
    if mouseX > 0 ∧ mouseY > 0 then
      (((mouseX - rectLeft) - view.x) / view.scale,
       ((mouseY - rectTop) - view.y) / view.scale)
    else (centerX + 20, centerY + 20)
  (target.1 - centerX, target.2 - centerY)

/-- Steps 4-5 of `pasteItems`: the duplication first pass followed by the
reference-remapping second pass. -/
def pasteNewItems (clipboard : List CanvasItem) (freshIds : List String)
    (dx dy : ℚ) (topZ : Int) : List CanvasItem :=
  let pairs := clipboard.zip freshIds
  let newIdsMap := pairs.map (fun p => (p.1.id, p.2))
  (pasteClones dx dy pairs topZ).map (remapEditor newIdsMap)

/-- Source: `pasteItems` (lines 129-204). `freshIds` supplies the random id
drawn for each clipboard item; `rectLeft rectTop` are the container rect
offset and `mouseX mouseY` the tracked client mouse position. -/
def pasteItems (freshIds : List String) (rectLeft rectTop mouseX mouseY : ℚ)
    (st : CanvasState) : CanvasState :=
  if st.clipboard = [] then st
  else
    let d := pasteTranslation st.clipboard st.view rectLeft rectTop mouseX mouseY
    let newItems := pasteNewItems st.clipboard freshIds d.1 d.2 st.topZ
    { st with
      topZ := st.topZ + (st.clipboard.zip freshIds).length
      items := st.items ++ newItems
      selectedIds := (newItems.map CanvasItem.id).toFinset
      activeItemId :=
        match newItems with
        | [only] => some only.id
        | _ => st.activeItemId }

-- ### Job lifecycle

/-- What one `checkStatus` tick observes from the backend. `netError` covers
a rejected `getHistory` or `getLogs` call (both land in the same catch).
`response` carries: whether `history[promptId]` is present, its
`status.status_str`, the output image urls per output key, and the value of
`parseConsoleProgress(logs, 20)`. -/
inductive TickInput where
  | netError
  | response (found : Bool) (statusStr : String) (outputs : List (List String))
      (parsed : ℚ)
deriving DecidableEq

/-- The `for key in outputs` loop: the first image of the first output key
with a nonempty image list (the loop returns from inside the body). -/
def firstOutputImage (outputs : List (List String)) : Option String :=
  match outputs.find? (fun imgs => ¬ imgs.isEmpty) with
  | some imgs => imgs.head?
  | none => none

/-- `item.data.progress` of the captured snapshot, read in the progress line
of `executeGeneration`; the source conditional reads the same field for both
non-image variants, and the image variant never reaches polling. -/
def dataProgress : ItemData → ℚ
  | .generator g => g.progress
  | .editor e => e.progress
  | .image _ => 0

/-- JS `value || 20` on the optional `editProgress` field: `undefined` and
`0` are falsy. -/
def editProgressOr20 : Option ℚ → ℚ
  | none => 20
  | some v => if v = 0 then 20 else v

/-- The snapshot `editProgress` read in the progress line of `executeEdit`:
`item.editProgress` for images, `item.data.editProgress` for generators. -/
def snapEditProgress : ItemData → Option ℚ
  | .image d => d.editProgress
  | .generator g => g.editProgress
  | .editor _ => none

/-- Patch `(isGenerating := true, progress := 0)` applied by
`executeGeneration` before its try block. -/
def genStartPatch : ItemData → ItemData
  | .generator g => .generator { g with isGenerating := true, progress := 0 }
  | .editor e => .editor { e with isGenerating := true, progress := 0 }
  | d => d

/-- Patch `(isGenerating := false, progress := 0)` of both catch blocks of
`executeGeneration`. -/
def genFailPatch : ItemData → ItemData
  | .generator g => .generator { g with isGenerating := false, progress := 0 }
  | .editor e => .editor { e with isGenerating := false, progress := 0 }
  | d => d

/-- Patch `(progress := p)` of the polling progress update. -/
def setProgressPatch (p : ℚ) : ItemData → ItemData
  | .generator g => .generator { g with progress := p }
  | .editor e => .editor { e with progress := p }
  | d => d

/-- Patch `(isGenerating := false, progress := 100, resultImage, mode)` of
the in-place generator success. -/
def genResultPatch (url : String) : ItemData → ItemData
  | .generator g =>
      .generator { g with
        isGenerating := false, progress := 100
        resultImage := some url, mode := .resultMode }
  | d => d

/-- Patch `(isGenerating := false, progress := 100)` after the editor
success spawn. -/
def genDonePatch : ItemData → ItemData
  | .generator g => .generator { g with isGenerating := false, progress := 100 }
  | .editor e => .editor { e with isGenerating := false, progress := 100 }
  | d => d

/-- The catch of the `checkStatus` inside `executeGeneration`. -/
def genCatch (id : String) (st : CanvasState) : CanvasState :=
  { st with items := updateItemData id genFailPatch st.items }

/-- One tick of the `checkStatus` poll of `executeGeneration`
(lines 753-817). `snap` is the closure-captured item found at submit time,
`snapZ` the closure-captured `topZ`; `dimsW dimsH` are the natural size the
browser reports for the fetched result image; `freshId` the id drawn for a
spawned item. Returns the new state and whether another tick is scheduled. -/
def generationCheckStatus (snap : CanvasItem) (input : TickInput)
    (dimsW dimsH : ℚ) (freshId : String) (snapZ : Int) (st : CanvasState) :
    CanvasState × Bool :=
  match input with
  | .netError => (genCatch snap.id st, false)
  | .response found statusStr outputs parsed =>
    if found ∧ statusStr = "success" then
      match firstOutputImage outputs with
      | some url =>
          (match snap.data with
           | .generator _ =>
               ({ st with items := updateItemData snap.id (genResultPatch url) st.items },
                false)
           | _ =>
               let newItem : CanvasItem :=
                 { id := freshId
                   x := snap.x + snap.width + 50
                   y := snap.y
                   width := dimsW / 2
                   height := dimsH / 2
                   zIndex := snapZ + 2
                   parentId := some snap.id
                   data := .image { src := url, editPrompt := none,
                                    isEditing := false, editProgress := none } }
               let st1 := { st with
                 topZ := st.topZ + 2
                 items := st.items ++ [newItem]
                 selectedIds := {freshId} }
               ({ st1 with items := updateItemData snap.id genDonePatch st1.items },
                false))
      | none =>
          let currentProg := dataProgress snap.data
          let newProg := if parsed > 0 then parsed else min (currentProg + 2) 95
          ({ st with items := updateItemData snap.id (setProgressPatch newProg) st.items },
           true)
    else if found ∧ statusStr = "error" then (genCatch snap.id st, false)
    else
      let currentProg := dataProgress snap.data
      let newProg := if parsed > 0 then parsed else min (currentProg + 2) 95
      ({ st with items := updateItemData snap.id (setProgressPatch newProg) st.items },
       true)

/-- The catch of the `checkStatus` inside `executeEdit`: only the editing
flag is cleared (the snapshot type selects which updater runs). -/
def editCatch (snap : CanvasItem) (st : CanvasState) : CanvasState :=
  match snap.data with
  | .image _ =>
      { st with items := updateImageItem snap.id (fun d => { d with isEditing := false }) st.items }
  | _ =>
      let patch : ItemData → ItemData := fun d =>
        match d with
        | .generator g => .generator { g with isEditing := false }
        | other => other
      { st with items := updateItemData snap.id patch st.items }

/-- Patch clearing the edit session after a successful edit:
`(isEditing := false, editProgress := 100, editPrompt := empty)`. -/
def editDoneImagePatch (d : ImageData) : ImageData :=
  { d with isEditing := false, editProgress := some 100, editPrompt := some "" }

/-- The generator flavour of `editDoneImagePatch`. -/
def editDonePatch : ItemData → ItemData
  | .generator g =>
      .generator { g with isEditing := false, editProgress := some 100,
                          editPrompt := some "" }
  | d => d

/-- Patch `(editProgress := p)` of the edit-poll progress update. -/
def setEditProgressPatch (p : ℚ) : ItemData → ItemData
  | .generator g => .generator { g with editProgress := some p }
  | d => d

/-- One tick of the `checkStatus` poll of `executeEdit` (lines 639-699).
Arguments as in `generationCheckStatus`; the spawned image inherits the
snapshot size instead of the fetched image size. -/
def editCheckStatus (snap : CanvasItem) (input : TickInput) (freshId : String)
    (snapZ : Int) (st : CanvasState) : CanvasState × Bool :=
  match input with
  | .netError => (editCatch snap st, false)
  | .response found statusStr outputs parsed =>
    if found ∧ statusStr = "success" then
      match firstOutputImage outputs with
      | some url =>
          let newItem : CanvasItem :=
            { id := freshId
              x := snap.x + snap.width + 40
              y := snap.y
              width := snap.width
              height := snap.height
              zIndex := snapZ + 2
              parentId := some snap.id
              data := .image { src := url, editPrompt := none,
                               isEditing := false, editProgress := none } }
          let st1 := { st with
            topZ := st.topZ + 2
            items := st.items ++ [newItem]
            selectedIds := {freshId} }
          let st2 :=
            match snap.data with
            | .image _ =>
                { st1 with items := updateImageItem snap.id editDoneImagePatch st1.items }
            | _ =>
                { st1 with items := updateItemData snap.id editDonePatch st1.items }
          (st2, false)
      | none =>
          let currentProg := editProgressOr20 (snapEditProgress snap.data)
          let newProg := if parsed > 0 then parsed else min (currentProg + 2) 95
          let items :=
            match snap.data with
            | .image _ =>
                updateImageItem snap.id (fun d => { d with editProgress := some newProg })
                  st.items
            | _ => updateItemData snap.id (setEditProgressPatch newProg) st.items
          ({ st with items := items }, true)
    else if found ∧ statusStr = "error" then (editCatch snap st, false)
    else
      let currentProg := editProgressOr20 (snapEditProgress snap.data)
      let newProg := if parsed > 0 then parsed else min (currentProg + 2) 95
      let items :=
        match snap.data with
        | .image _ =>
            updateImageItem snap.id (fun d => { d with editProgress := some newProg })
              st.items
        | _ => updateItemData snap.id (setEditProgressPatch newProg) st.items
      ({ st with items := items }, true)

/-- How far the synchronous prefix of `executeGeneration` got. -/
inductive StartResult where
  | notFound
  | badServer
  | returnedEarly
  | failed (msg : String)
  | proceeded
deriving DecidableEq

/-- Source: `executeGeneration` (lines 709-750 plus the outer catch at
821-824), up to the first genuinely asynchronous backend call. `serverOk`
models `ensureHttps(serverUrl)` being truthy. The lookups of the item and of
the edit target both read the render-time `items` array. On a synchronous
throw the outer catch alerts the message and applies `genFailPatch`. -/
def executeGenerationStart (itemId : String) (serverOk : Bool)
    (st : CanvasState) : CanvasState × StartResult :=
  match findItem st.items itemId with
  | none => (st, .notFound)
  | some it =>
    if ¬ serverOk then (st, .badServer)
    else
      let st1 := { st with items := updateItemData itemId genStartPatch st.items }
      match it.data with
      | .generator _ => (st1, .proceeded)
      | .image _ => (st1, .returnedEarly)
      | .editor e =>
        match e.targetId with
        | none => (genCatch itemId st1, .failed "No target image selected")
        | some t =>
          match findItem st.items t with
          | none => (genCatch itemId st1, .failed "Target image not found")
          | some _ =>
              ({ st1 with items := updateItemData itemId (setProgressPatch 10) st1.items },
               .proceeded)

-- ### The step relation of user-visible operations

/-- One operation of the interaction loop. Backend observations, random ids
and pointer data are carried as constructor arguments. -/
inductive Op where
  | wheel (mouseX mouseY deltaY : ℚ)
  | zoomIn
  | zoomOut
  | reset
  | pan (dx dy : ℚ)
  | dragItems (dx dy : ℚ)
  | backgroundDown (panTrigger shiftKey : Bool)
  | itemDown (shiftKey : Bool) (id : String)
  | rubberBand (shiftKey : Bool) (startX startY curX curY : ℚ)
  | copy
  | paste (freshIds : List String) (rectLeft rectTop mouseX mouseY : ℚ)
  | deleteSel (inField : Bool)
  | removeOne (id : String)
  | genStart (itemId : String) (serverOk : Bool)
  | genPoll (snap : CanvasItem) (input : TickInput) (dimsW dimsH : ℚ)
      (freshId : String) (snapZ : Int)
  | editPoll (snap : CanvasItem) (input : TickInput) (freshId : String) (snapZ : Int)

/-- The step function: dispatch of each operation on the component state. -/
def step : Op → CanvasState → CanvasState
  | .wheel mx my dy, st => { st with view := handleWheel st.view mx my dy }
  | .zoomIn, st => { st with view := zoomInBtn st.view }
  | .zoomOut, st => { st with view := zoomOutBtn st.view }
  | .reset, st => { st with view := resetBtn st.view }
  | .pan dx dy, st => { st with view := panMove st.view dx dy }
  | .dragItems dx dy, st => itemDragMove dx dy st
  | .backgroundDown p s, st => handleBackgroundMouseDown p s st
  | .itemDown s id, st => handleItemMouseDown s id st
  | .rubberBand s a b c d, st => rubberBandMove s a b c d st
  | .copy, st => copySelected st
  | .paste ids rl rt mx my, st => pasteItems ids rl rt mx my st
  | .deleteSel f, st => deleteSelected f st
  | .removeOne id, st => removeItem id st
  | .genStart id ok, st => (executeGenerationStart id ok st).1
  | .genPoll snap inp w h fid z, st => (generationCheckStatus snap inp w h fid z st).1
  | .editPoll snap inp fid z, st => (editCheckStatus snap inp fid z st).1

-- ### Claim C8

/-- The operations that touch the scale in the source: the wheel handler
and the three viewport buttons. -/
def changesScale : Op → Bool
  | .wheel _ _ _ => true
  | .zoomIn => true
  | .zoomOut => true
  | .reset => true
  | _ => false

/-- The concrete state used to refute claim C8. -/
def c8State : CanvasState :=
  { items := [], topZ := 10, selectedIds := ∅, activeItemId := none,
    view := { x := 3, y := 4, scale := 2 }, clipboard := [] }

-- ### Claim C7

/-- The selection invariant of the claim: the active item, when set, is a
member of the selection set. -/
def selInvariant (st : CanvasState) : Prop :=
  ∀ a, st.activeItemId = some a → a ∈ st.selectedIds

/-- The concrete state used to refute claim C7: the active item `z` is
selected, and the clipboard holds two earlier-copied items. -/
def c7State : CanvasState :=
  { items := [{ id := "z", x := 0, y := 0, width := 10, height := 10, zIndex := 1,
                parentId := none,
                data := .image { src := "s", editPrompt := none, isEditing := false,
                                 editProgress := none } }]
    topZ := 10
    selectedIds := {"z"}
    activeItemId := some "z"
    view := { x := 0, y := 0, scale := 1 }
    clipboard :=
      [{ id := "a", x := 0, y := 0, width := 10, height := 10, zIndex := 1,
         parentId := none,
         data := .image { src := "s", editPrompt := none, isEditing := false,
                          editProgress := none } },
       { id := "b", x := 30, y := 0, width := 10, height := 10, zIndex := 2,
         parentId := none,
         data := .image { src := "s", editPrompt := none, isEditing := false,
                          editProgress := none } }] }

/-- Which operations the amended claim asserts preserve the selection
invariant: item pointer-down, background pointer-down, a shift-held
rubber-band recompute, delete, remove, and a paste of at most one item. -/
def preservesSelection : Op → CanvasState → Prop
  | .itemDown _ _, _ => True
  | .backgroundDown _ _, _ => True
  | .rubberBand sh _ _ _ _, _ => sh = true
  | .deleteSel _, _ => True
  | .removeOne _, _ => True
  | .paste fids _ _ _ _, st =>
      st.clipboard.length ≤ 1 ∧ fids.length = st.clipboard.length
  | _, _ => False

/-- A minimal concrete state with nothing selected, used by witnesses. -/
def emptyState : CanvasState :=
  { items := [], topZ := 10, selectedIds := ∅, activeItemId := none,
    view := { x := 0, y := 0, scale := 1 }, clipboard := [] }

-- ### Claim C4

/-- The `targetId` stored in an item, observable only on editors. -/
def itemTargetId : ItemData → Option String
  | .editor e => e.targetId
  | _ => none

/-- The concrete state used by the C4 witness: the clipboard holds an
editor targeting image `a` together with that image. -/
def c4State : CanvasState :=
  { items := [], topZ := 10, selectedIds := ∅, activeItemId := none,
    view := { x := 0, y := 0, scale := 1 },
    clipboard :=
      [{ id := "a", x := 0, y := 0, width := 10, height := 10, zIndex := 1,
         parentId := none,
         data := .image { src := "s", editPrompt := none, isEditing := false,
                          editProgress := none } },
       { id := "e", x := 30, y := 0, width := 10, height := 10, zIndex := 2,
         parentId := none,
         data := .editor { targetId := some "a", prompt := "p", steps := 20,
                           cfg := 5 / 2, isGenerating := false, progress := 0 } }] }

-- ### Claim C5

/-- The observable generation state of an editor item: its `isGenerating`
flag and `progress` value, when the id resolves to an editor. -/
def editorFlags (items : List CanvasItem) (id : String) : Option (Bool × ℚ) :=
  match findItem items id with
  | some it =>
      match it.data with
      | .editor e => some (e.isGenerating, e.progress)
      | _ => none
  | none => none

/-- The item array after a synchronous precondition failure of
`executeGenerationStart`: the start patch followed by the catch patch. -/
def genSyncFailItems (itemId : String) (items : List CanvasItem) : List CanvasItem :=
  updateItemData itemId genFailPatch (updateItemData itemId genStartPatch items)

/-- The editor record of the item used to refute claim C5: null target,
leftover progress 100 from an earlier successful run. -/
def c5Ed : EdData :=
  { targetId := none, prompt := "p", steps := 20, cfg := 5 / 2,
    isGenerating := false, progress := 100 }

/-- The editor item used to refute claim C5. -/
def c5Item : CanvasItem :=
  { id := "e1", x := 0, y := 0, width := 300, height := 350, zIndex := 5,
    parentId := none, data := .editor c5Ed }

/-- The concrete state used to refute claim C5. -/
def c5State : CanvasState :=
  { items := [c5Item], topZ := 10, selectedIds := ∅, activeItemId := none,
    view := { x := 0, y := 0, scale := 1 }, clipboard := [] }

-- ### Claim C6

/-- The observable edit session of an item: the editing flag and the edit
progress, present on image and generator variants. -/
def editSession (items : List CanvasItem) (id : String) : Option (Bool × Option ℚ) :=
  match findItem items id with
  | some it =>
      match it.data with
      | .image d => some (d.isEditing, d.editProgress)
      | .generator g => some (g.isEditing, g.editProgress)
      | .editor _ => none
  | none => none

/-- The observable generation state of a generator item. -/
def generatorFlags (items : List CanvasItem) (id : String) : Option (Bool × ℚ) :=
  match findItem items id with
  | some it =>
      match it.data with
      | .generator g => some (g.isGenerating, g.progress)
      | _ => none
  | none => none

/-- The image record of the item used to refute claim C6: an in-place edit
session at progress 40. -/
def c6Img : ImageData :=
  { src := "s", editPrompt := some "p", isEditing := true, editProgress := some 40 }

/-- The image item used to refute claim C6. -/
def c6Item : CanvasItem :=
  { id := "i1", x := 0, y := 0, width := 10, height := 10, zIndex := 1,
    parentId := none, data := .image c6Img }

/-- The concrete state used to refute claim C6. -/
def c6State : CanvasState :=
  { items := [c6Item], topZ := 10, selectedIds := ∅, activeItemId := none,
    view := { x := 0, y := 0, scale := 1 }, clipboard := [] }

-- ### Claim C1

/-- The editor record of the in-flight job snapshot used for claim C1. -/
def c1Ed : EdData :=
  { targetId := some "i0", prompt := "p", steps := 20, cfg := 5 / 2,
    isGenerating := true, progress := 10 }

/-- The submit-time snapshot of the editor item that is then deleted. -/
def c1Snap : CanvasItem :=
  { id := "e1", x := 0, y := 0, width := 300, height := 350, zIndex := 5,
    parentId := none, data := .editor c1Ed }

/-- A bystander item that stays in the store after the editor is deleted. -/
def c1Bystander : CanvasItem :=
  { id := "b", x := 500, y := 0, width := 10, height := 10, zIndex := 1,
    parentId := none,
    data := .image { src := "s", editPrompt := none, isEditing := false,
                     editProgress := none } }

/-- The store after the editor item e1 was deleted mid-flight. -/
def c1State : CanvasState :=
  { items := [c1Bystander], topZ := 10, selectedIds := {"b"},
    activeItemId := some "b", view := { x := 0, y := 0, scale := 1 },
    clipboard := [] }

-- ### Claim C2

/-- The editor record of the submit-time snapshot used for claim C2: the
snapshot is taken before submission, when progress is still 0. -/
def c2Ed : EdData :=
  { targetId := some "i0", prompt := "p", steps := 20, cfg := 5 / 2,
    isGenerating := false, progress := 0 }

/-- The submit-time snapshot of the polled editor item of claim C2. -/
def c2Snap : CanvasItem :=
  { id := "e2", x := 0, y := 0, width := 300, height := 350, zIndex := 5,
    parentId := none, data := .editor c2Ed }

/-- The live store when polling starts: the same editor after the start
patch and the pre-upload progress update set progress to 10. -/
def c2State : CanvasState :=
  { items := [{ c2Snap with
      data := .editor { c2Ed with isGenerating := true, progress := 10 } }],
    topZ := 10, selectedIds := ∅, activeItemId := none,
    view := { x := 0, y := 0, scale := 1 }, clipboard := [] }

-- ### Helper lemmas

lemma executeGenerationStart_view (itemId : String) (ok : Bool) (st : CanvasState) :
    ((executeGenerationStart itemId ok st).1).view = st.view := by
  unfold executeGenerationStart
  split
  · rfl
  · split
    · rfl
    · split
      · rfl
      · rfl
      · split
        · rfl
        · split
          · rfl
          · rfl

lemma generationCheckStatus_view (snap : CanvasItem) (inp : TickInput)
    (w h : ℚ) (fid : String) (z : Int) (st : CanvasState) :
    ((generationCheckStatus snap inp w h fid z st).1).view = st.view := by
  unfold generationCheckStatus
  split
  · rfl
  · split
    · split
      · split
        · rfl
        · rfl
      · rfl
    · split
      · rfl
      · rfl

lemma editCheckStatus_view (snap : CanvasItem) (inp : TickInput)
    (fid : String) (z : Int) (st : CanvasState) :
    ((editCheckStatus snap inp fid z st).1).view = st.view := by
  unfold editCheckStatus
  split
  · unfold editCatch
    split <;> rfl
  · split
    · split
      · split <;> rfl
      · rfl
    · split
      · unfold editCatch
        split <;> rfl
      · rfl

-- ### Claim C9

/-- Claim C9: for every viewport with scale in the closed range from 0.1
to 5, every screen point and every wheel delta, the anchor-preserving zoom
of `handleWheel` leaves the world point under the pointer unchanged, in
exact arithmetic, clamping included. -/
theorem zoomAnchor_c9 (v : ViewState) (mx my dy : ℚ)
    (h1 : (1 : ℚ) / 10 ≤ v.scale) (h2 : v.scale ≤ 5) :
    toWorld (handleWheel v mx my dy) mx my = toWorld v mx my := by
  have h0 : (0 : ℚ) < 1 / 10 := by norm_num
  have hs : v.scale ≠ 0 := ne_of_gt (lt_of_lt_of_le h0 h1)
  have hnsge : (1 : ℚ) / 10 ≤ min (max ((1 : ℚ) / 10) (v.scale * (1 + -dy * (1 / 1000)))) 5 :=
    le_min (le_max_left _ _) (by norm_num)
  have hns : min (max ((1 : ℚ) / 10) (v.scale * (1 + -dy * (1 / 1000)))) 5 ≠ 0 :=
    ne_of_gt (lt_of_lt_of_le h0 hnsge)
  simp only [handleWheel, toWorld, Prod.mk.injEq]
  constructor <;> · field_simp; ring

/-- Witness for C9 at a concrete viewport and pointer. -/
theorem zoomAnchor_c9_witness :
    (1 : ℚ) / 10 ≤ (1 : ℚ) ∧ (1 : ℚ) ≤ 5 ∧
      toWorld (handleWheel ⟨0, 0, 1⟩ 3 4 100) 3 4 = toWorld ⟨0, 0, 1⟩ 3 4 :=
  ⟨by norm_num, by norm_num, zoomAnchor_c9 ⟨0, 0, 1⟩ 3 4 100 (by norm_num) (by norm_num)⟩

/-- Counterexample to claim C8: the claim says every step other than the
anchor-preserving wheel zoom, reset explicitly included, leaves the scale
unchanged; but the reset button sets the scale to 1 from a state with
scale 2 (and the zoom buttons rescale without preserving any anchor). -/
theorem scaleOnlyZoom_c8_cex :
    (step Op.reset c8State).view.scale ≠ c8State.view.scale ∧
      changesScale Op.reset = true := by
  constructor
  · norm_num [step, resetBtn, c8State]
  · rfl

/-- Claim C8, amended: the viewport scale is changed only by the wheel
zoom and by the zoom-in, zoom-out and reset buttons; every other step of
the step relation (pan, drag, selection, clipboard, deletion, job
operations) leaves the scale unchanged. -/
theorem scaleChanges_c8_amended (op : Op) (st : CanvasState)
    (h : changesScale op = false) :
    (step op st).view.scale = st.view.scale := by
  cases op with
  | wheel mx my dy => simp [changesScale] at h
  | zoomIn => simp [changesScale] at h
  | zoomOut => simp [changesScale] at h
  | reset => simp [changesScale] at h
  | pan dx dy => rfl
  | dragItems dx dy => rfl
  | backgroundDown p s =>
      simp only [step, handleBackgroundMouseDown]
      split
      · rfl
      · split <;> rfl
  | itemDown s id =>
      simp only [step, handleItemMouseDown]
      split
      · split <;> rfl
      · split <;> rfl
  | rubberBand s a b c d => rfl
  | copy =>
      simp only [step, copySelected]
      split <;> rfl
  | paste ids rl rt mx my =>
      simp only [step, pasteItems]
      split
      · rfl
      · rfl
  | deleteSel f =>
      simp only [step, deleteSelected]
      split
      · split <;> rfl
      · rfl
  | removeOne id => rfl
  | genStart id ok =>
      show ((executeGenerationStart id ok st).1).view.scale = st.view.scale
      rw [executeGenerationStart_view]
  | genPoll snap inp w hh fid z =>
      show ((generationCheckStatus snap inp w hh fid z st).1).view.scale = st.view.scale
      rw [generationCheckStatus_view]
  | editPoll snap inp fid z =>
      show ((editCheckStatus snap inp fid z st).1).view.scale = st.view.scale
      rw [editCheckStatus_view]

/-- Witness for the amended C8 at a concrete non-zoom step. -/
theorem scaleChanges_c8_amended_witness :
    (step (Op.pan 7 9) c8State).view.scale = c8State.view.scale :=
  scaleChanges_c8_amended (Op.pan 7 9) c8State (by rfl)

-- ### Paste helper lemmas

lemma remapEditor_id (m : List (String × String)) (it : CanvasItem) :
    (remapEditor m it).id = it.id := by
  unfold remapEditor
  repeat' split
  all_goals rfl

lemma remapEditor_x (m : List (String × String)) (it : CanvasItem) :
    (remapEditor m it).x = it.x := by
  unfold remapEditor
  repeat' split
  all_goals rfl

lemma remapEditor_y (m : List (String × String)) (it : CanvasItem) :
    (remapEditor m it).y = it.y := by
  unfold remapEditor
  repeat' split
  all_goals rfl

lemma remapEditor_parentId (m : List (String × String)) (it : CanvasItem) :
    (remapEditor m it).parentId = it.parentId := by
  unfold remapEditor
  repeat' split
  all_goals rfl

lemma pasteClones_length (dx dy : ℚ) (pairs : List (CanvasItem × String)) (z : Int) :
    (pasteClones dx dy pairs z).length = pairs.length := by
  induction pairs generalizing z with
  | nil => rfl
  | cons p rest ih => simpa [pasteClones] using ih (z + 1)

lemma pasteClones_map_id (dx dy : ℚ) (pairs : List (CanvasItem × String)) (z : Int) :
    (pasteClones dx dy pairs z).map CanvasItem.id = pairs.map Prod.snd := by
  induction pairs generalizing z with
  | nil => rfl
  | cons p rest ih =>
      obtain ⟨it, newId⟩ := p
      simpa [pasteClones, pasteClone] using ih (z + 1)

lemma pasteNewItems_map_id (clipboard : List CanvasItem) (freshIds : List String)
    (dx dy : ℚ) (z : Int) (hlen : freshIds.length = clipboard.length) :
    (pasteNewItems clipboard freshIds dx dy z).map CanvasItem.id = freshIds := by
  unfold pasteNewItems
  rw [List.map_map]
  have hcomp : CanvasItem.id ∘ remapEditor (List.map (fun p => (p.1.id, p.2)) (clipboard.zip freshIds))
      = CanvasItem.id := funext (fun it => remapEditor_id _ it)
  rw [hcomp, pasteClones_map_id]
  exact List.map_snd_zip clipboard freshIds (le_of_eq hlen)

lemma pasteNewItems_length (clipboard : List CanvasItem) (freshIds : List String)
    (dx dy : ℚ) (z : Int) :
    (pasteNewItems clipboard freshIds dx dy z).length = (clipboard.zip freshIds).length := by
  unfold pasteNewItems
  rw [List.length_map, pasteClones_length]

/-- Counterexample to claim C7: pasting two items replaces the selection
with the two fresh ids but leaves `activeItemId` untouched, so the active
item is no longer a member of the selection. -/
theorem selectionInvariant_c7_cex :
    selInvariant c7State ∧
      ¬ selInvariant (step (Op.paste ["n1", "n2"] 0 0 0 0) c7State) := by
  constructor
  · intro a ha
    simp only [c7State] at ha
    cases ha
    simp [c7State]
  · intro h
    have h2 := h "z"
    simp [step, pasteItems, pasteTranslation, pasteNewItems, pasteClones, pasteClone,
      remapEditor, mapGet, c7State, bboxMinX, bboxMinY, bboxMaxX, bboxMaxY] at h2

/-- Claim C7, amended: the invariant that `activeItemId` is null or a member
of `selectedIds` is preserved by item pointer-down, background pointer-down,
shift-held rubber-band recompute, delete, remove, and paste of at most one
item; a paste of two or more items leaves `activeItemId` unchanged while
replacing the selection, which can break the invariant, as can a rubber-band
recompute with shift released. -/
theorem selectionInvariant_c7_amended (op : Op) (st : CanvasState)
    (hop : preservesSelection op st) (hinv : selInvariant st) :
    selInvariant (step op st) := by
  cases op with
  | wheel mx my dy => exact absurd hop (by simp [preservesSelection])
  | zoomIn => exact absurd hop (by simp [preservesSelection])
  | zoomOut => exact absurd hop (by simp [preservesSelection])
  | reset => exact absurd hop (by simp [preservesSelection])
  | pan dx dy => exact absurd hop (by simp [preservesSelection])
  | dragItems dx dy => exact absurd hop (by simp [preservesSelection])
  | copy => exact absurd hop (by simp [preservesSelection])
  | genStart id ok => exact absurd hop (by simp [preservesSelection])
  | genPoll snap inp w hh fid z => exact absurd hop (by simp [preservesSelection])
  | editPoll snap inp fid z => exact absurd hop (by simp [preservesSelection])
  | itemDown s id =>
      intro a ha
      simp only [step, handleItemMouseDown] at ha ⊢
      by_cases hs : s = true
      · by_cases hm : id ∈ st.selectedIds
        · simp only [if_pos hs, if_pos hm] at ha ⊢
          by_cases hact : st.activeItemId = some id
          · simp [hact] at ha
          · simp only [if_neg hact] at ha
            refine Finset.mem_erase.mpr ⟨?_, hinv a ha⟩
            intro hcontra
            rw [hcontra] at ha
            exact hact ha
        · simp only [if_pos hs, if_neg hm] at ha ⊢
          simp only [Option.some.injEq] at ha
          subst ha
          exact Finset.mem_insert_self _ _
      · by_cases hm : id ∈ st.selectedIds
        · have hm2 : ¬ id ∉ st.selectedIds := by simpa using hm
          simp only [if_neg hs, if_neg hm2] at ha ⊢
          simp only [Option.some.injEq] at ha
          subst ha
          exact hm
        · simp only [if_neg hs, if_pos hm] at ha ⊢
          simp only [Option.some.injEq] at ha
          subst ha
          exact Finset.mem_singleton_self _
  | backgroundDown p s =>
      intro a ha
      simp only [step, handleBackgroundMouseDown] at ha ⊢
      by_cases hp : p = true
      · simp only [if_pos hp] at ha ⊢
        exact hinv a ha
      · by_cases hsh : s = true
        · simp only [if_neg hp, if_pos hsh] at ha ⊢
          exact hinv a ha
        · simp only [if_neg hp, if_neg hsh] at ha
          simp at ha
  | rubberBand sh a1 b1 c1 d1 =>
      intro a ha
      have hsh : sh = true := hop
      subst hsh
      simp only [step, rubberBandMove] at ha ⊢
      exact Finset.mem_union_left _ (hinv a ha)
  | deleteSel f =>
      intro a ha
      simp only [step, deleteSelected] at ha ⊢
      by_cases hne : st.selectedIds.Nonempty
      · by_cases hf : f = true
        · simp only [if_pos hne, if_pos hf] at ha ⊢
          exact hinv a ha
        · simp only [if_pos hne, if_neg hf] at ha
          simp at ha
      · simp only [if_neg hne] at ha ⊢
        exact hinv a ha
  | removeOne id =>
      intro a ha
      simp only [step, removeItem] at ha ⊢
      by_cases hact : st.activeItemId = some id
      · simp [hact] at ha
      · simp only [if_neg hact] at ha
        refine Finset.mem_erase.mpr ⟨?_, hinv a ha⟩
        intro hcontra
        rw [hcontra] at ha
        exact hact ha
  | paste fids rl rt mx my =>
      obtain ⟨hlen, hfl⟩ := hop
      intro a ha
      simp only [step, pasteItems] at ha ⊢
      by_cases hc : st.clipboard = []
      · simp only [if_pos hc] at ha ⊢
        exact hinv a ha
      · simp only [if_neg hc] at ha ⊢
        obtain ⟨c, rest, hcl⟩ := List.exists_cons_of_ne_nil hc
        have hrest : rest = [] := by
          rw [hcl] at hlen
          simp only [List.length_cons] at hlen
          exact List.eq_nil_of_length_eq_zero (by omega)
        subst hrest
        have hf1 : fids.length = 1 := by rw [hcl] at hfl; simpa using hfl
        obtain ⟨f, hf⟩ := List.length_eq_one.mp hf1
        rw [hcl, hf] at ha ⊢
        simp only [pasteNewItems, List.zip_cons_cons, List.zip_nil_left,
          List.map_cons, List.map_nil, pasteClones] at ha ⊢
        simp only [Option.some.injEq] at ha
        subst ha
        simp

/-- Witness for the amended C7 at a concrete preserved step. -/
theorem selectionInvariant_c7_amended_witness :
    selInvariant (step (Op.removeOne "q") emptyState) :=
  selectionInvariant_c7_amended (Op.removeOne "q") emptyState trivial
    (fun a ha => by simp [emptyState] at ha)

-- ### Claim C3

lemma pasteClones_get (dx dy : ℚ) (pairs : List (CanvasItem × String)) (z : Int)
    (i : ℕ) (hi : i < (pasteClones dx dy pairs z).length) (hj : i < pairs.length) :
    (pasteClones dx dy pairs z).get ⟨i, hi⟩
      = pasteClone dx dy (pairs.get ⟨i, hj⟩).1 (pairs.get ⟨i, hj⟩).2 (z + i + 1) := by
  induction pairs generalizing z i with
  | nil => exact absurd hj (Nat.not_lt_zero i)
  | cons q rest ih =>
      obtain ⟨it, nid⟩ := q
      cases i with
      | zero =>
          show pasteClone dx dy it nid (z + 1) = pasteClone dx dy it nid (z + (0 : ℕ) + 1)
          congr 1
          push_cast
          ring
      | succ n =>
          have hi2 : n < (pasteClones dx dy rest (z + 1)).length := by
            simp only [pasteClones, List.length_cons] at hi
            omega
          have hj2 : n < rest.length := by
            simp only [List.length_cons] at hj
            omega
          have hstep : (pasteClones dx dy ((it, nid) :: rest) z).get ⟨n + 1, hi⟩
              = (pasteClones dx dy rest (z + 1)).get ⟨n, hi2⟩ := rfl
          rw [hstep, ih (z + 1) n hi2 hj2]
          have harg : ((it, nid) :: rest).get ⟨n + 1, hj⟩ = rest.get ⟨n, hj2⟩ := rfl
          rw [harg]
          congr 1
          push_cast
          ring

lemma pasteClones_parentId (dx dy : ℚ) (pairs : List (CanvasItem × String)) (z : Int) :
    ∀ p ∈ pasteClones dx dy pairs z, p.parentId = none := by
  induction pairs generalizing z with
  | nil => intro p hp; simp [pasteClones] at hp
  | cons q rest ih =>
      intro p hp
      obtain ⟨it, nid⟩ := q
      simp only [pasteClones, List.mem_cons] at hp
      rcases hp with h | h
      · subst h; rfl
      · exact ih (z + 1) p h

lemma pasteNewItems_parentId (clipboard : List CanvasItem) (freshIds : List String)
    (dx dy : ℚ) (z : Int) :
    ∀ p ∈ pasteNewItems clipboard freshIds dx dy z, p.parentId = none := by
  intro p hp
  unfold pasteNewItems at hp
  obtain ⟨q, hq, rfl⟩ := List.mem_map.mp hp
  rw [remapEditor_parentId]
  exact pasteClones_parentId _ _ _ _ q hq

lemma pasteNewItems_get (clipboard : List CanvasItem) (freshIds : List String)
    (dx dy : ℚ) (z : Int) (i : ℕ)
    (hp : i < (pasteNewItems clipboard freshIds dx dy z).length)
    (hc : i < clipboard.length) (hf : i < freshIds.length) :
    (pasteNewItems clipboard freshIds dx dy z).get ⟨i, hp⟩
      = remapEditor (List.map (fun p => (p.1.id, p.2)) (clipboard.zip freshIds))
          (pasteClone dx dy (clipboard.get ⟨i, hc⟩) (freshIds.get ⟨i, hf⟩) (z + i + 1)) := by
  have hz : i < (clipboard.zip freshIds).length := by
    rw [List.length_zip]
    exact lt_min hc hf
  have hcl : i < (pasteClones dx dy (clipboard.zip freshIds) z).length := by
    rw [pasteClones_length]
    exact hz
  have h1 : (pasteClones dx dy (clipboard.zip freshIds) z).get ⟨i, hcl⟩
      = pasteClone dx dy (clipboard.get ⟨i, hc⟩) (freshIds.get ⟨i, hf⟩) (z + i + 1) := by
    rw [pasteClones_get dx dy _ z i hcl hz]
    have hzip : (clipboard.zip freshIds).get ⟨i, hz⟩
        = (clipboard.get ⟨i, hc⟩, freshIds.get ⟨i, hf⟩) := by
      simp only [List.get_eq_getElem, List.getElem_zip]
    rw [hzip]
  calc (pasteNewItems clipboard freshIds dx dy z).get ⟨i, hp⟩
      = remapEditor (List.map (fun p => (p.1.id, p.2)) (clipboard.zip freshIds))
          ((pasteClones dx dy (clipboard.zip freshIds) z).get ⟨i, hcl⟩) := by
        simp only [pasteNewItems, List.get_eq_getElem, List.getElem_map]
    _ = _ := by rw [h1]

lemma pasteItems_items (st : CanvasState) (freshIds : List String)
    (rl rt mx my : ℚ) (hne : st.clipboard ≠ []) :
    (pasteItems freshIds rl rt mx my st).items
      = st.items ++ pasteNewItems st.clipboard freshIds
          (pasteTranslation st.clipboard st.view rl rt mx my).1
          (pasteTranslation st.clipboard st.view rl rt mx my).2 st.topZ := by
  rw [pasteItems, if_neg hne]

/-- Claim C3: pasting a nonempty clipboard of N items, with the N sampled
ids pairwise distinct and absent from the store, appends exactly N new
items whose ids are the fresh ids (hence pairwise distinct and disjoint
from the store), whose positions are the originals translated by one single
vector, and whose parentId is cleared. -/
theorem paste_roundTrip_c3 (st : CanvasState) (freshIds : List String)
    (rl rt mx my : ℚ)
    (hne : st.clipboard ≠ [])
    (hlen : freshIds.length = st.clipboard.length)
    (hnodup : freshIds.Nodup)
    (hfresh : ∀ fid ∈ freshIds, fid ∉ st.items.map CanvasItem.id) :
    ∃ pasted dx dy,
      (pasteItems freshIds rl rt mx my st).items = st.items ++ pasted ∧
      pasted.length = st.clipboard.length ∧
      pasted.map CanvasItem.id = freshIds ∧
      (pasted.map CanvasItem.id).Nodup ∧
      (∀ fid ∈ pasted.map CanvasItem.id, fid ∉ st.items.map CanvasItem.id) ∧
      (∀ i (hp : i < pasted.length) (hc : i < st.clipboard.length),
        (pasted.get ⟨i, hp⟩).x = (st.clipboard.get ⟨i, hc⟩).x + dx ∧
        (pasted.get ⟨i, hp⟩).y = (st.clipboard.get ⟨i, hc⟩).y + dy) ∧
      (∀ p ∈ pasted, p.parentId = none) := by
  refine ⟨pasteNewItems st.clipboard freshIds
      (pasteTranslation st.clipboard st.view rl rt mx my).1
      (pasteTranslation st.clipboard st.view rl rt mx my).2 st.topZ,
    (pasteTranslation st.clipboard st.view rl rt mx my).1,
    (pasteTranslation st.clipboard st.view rl rt mx my).2,
    pasteItems_items st freshIds rl rt mx my hne, ?_, ?_, ?_, ?_, ?_,
    pasteNewItems_parentId _ _ _ _ _⟩
  · rw [pasteNewItems_length, List.length_zip, hlen, min_self]
  · exact pasteNewItems_map_id _ _ _ _ _ hlen
  · rw [pasteNewItems_map_id _ _ _ _ _ hlen]; exact hnodup
  · rw [pasteNewItems_map_id _ _ _ _ _ hlen]; exact hfresh
  · intro i hp hc
    have hf : i < freshIds.length := by rw [hlen]; exact hc
    rw [pasteNewItems_get st.clipboard freshIds _ _ st.topZ i hp hc hf]
    constructor
    · rw [remapEditor_x]
      rfl
    · rw [remapEditor_y]
      rfl

/-- Witness for C3 at the concrete two-item clipboard of `c7State`. -/
theorem paste_roundTrip_c3_witness :
    ∃ pasted dx dy,
      (pasteItems ["n1", "n2"] 0 0 0 0 c7State).items = c7State.items ++ pasted ∧
      pasted.length = c7State.clipboard.length ∧
      pasted.map CanvasItem.id = ["n1", "n2"] ∧
      (pasted.map CanvasItem.id).Nodup ∧
      (∀ fid ∈ pasted.map CanvasItem.id, fid ∉ c7State.items.map CanvasItem.id) ∧
      (∀ i (hp : i < pasted.length) (hc : i < c7State.clipboard.length),
        (pasted.get ⟨i, hp⟩).x = (c7State.clipboard.get ⟨i, hc⟩).x + dx ∧
        (pasted.get ⟨i, hp⟩).y = (c7State.clipboard.get ⟨i, hc⟩).y + dy) ∧
      (∀ p ∈ pasted, p.parentId = none) :=
  paste_roundTrip_c3 c7State ["n1", "n2"] 0 0 0 0 (by simp [c7State])
    (by simp [c7State]) (by simp) (by simp [c7State])

lemma mapGet_eq_none (m : List (String × String)) (k : String)
    (h : k ∉ m.map Prod.fst) : mapGet m k = none := by
  induction m with
  | nil => rfl
  | cons p rest ih =>
      obtain ⟨k0, v0⟩ := p
      simp only [List.map_cons, List.mem_cons] at h
      push_neg at h
      obtain ⟨hne, hrest⟩ := h
      simp only [mapGet, ih hrest]
      simp [hne]

lemma mapGet_eq_some (m : List (String × String)) (k v : String)
    (hk : (m.map Prod.fst).Nodup) (hmem : (k, v) ∈ m) : mapGet m k = some v := by
  induction m with
  | nil => simp at hmem
  | cons p rest ih =>
      obtain ⟨k0, v0⟩ := p
      simp only [List.map_cons, List.nodup_cons] at hk
      obtain ⟨hk0, hkrest⟩ := hk
      rcases List.mem_cons.mp hmem with h | h
      · rw [Prod.mk.injEq] at h
        obtain ⟨h1, h2⟩ := h
        subst h1
        subst h2
        have hnone : mapGet rest k = none := mapGet_eq_none rest k hk0
        simp [mapGet, hnone]
      · simp [mapGet, ih hkrest h]

lemma remapEditor_targetId (m : List (String × String)) (it : CanvasItem)
    (e : EdData) (hdata : it.data = ItemData.editor e) :
    itemTargetId (remapEditor m it).data = e.targetId.bind (mapGet m) := by
  obtain ⟨i1, x1, y1, w1, h1, z1, p1, data1⟩ := it
  have hd2 : data1 = ItemData.editor e := hdata
  subst hd2
  cases htid : e.targetId with
  | none => simp [remapEditor, itemTargetId, htid]
  | some t =>
      cases hmg : mapGet m t with
      | none => simp [remapEditor, itemTargetId, htid, hmg]
      | some nid => simp [remapEditor, itemTargetId, htid, hmg]

lemma newIdsMap_fst (clipboard : List CanvasItem) (freshIds : List String)
    (hlen : freshIds.length = clipboard.length) :
    (List.map (fun p => (p.1.id, p.2)) (clipboard.zip freshIds)).map Prod.fst
      = clipboard.map CanvasItem.id := by
  rw [List.map_map]
  have h1 : (Prod.fst ∘ fun p : CanvasItem × String => (p.1.id, p.2))
      = CanvasItem.id ∘ Prod.fst := rfl
  rw [h1, ← List.map_map, List.map_fst_zip]
  exact le_of_eq hlen.symm

/-- Claim C4: after a paste, a pasted editor whose original targetId was the
id of an item of the same pasted batch points at that item's fresh id (and
never at the original id), and a pasted editor whose original targetId was
absent from the batch (or null) gets a null targetId. -/
theorem paste_targetRemap_c4 (st : CanvasState) (freshIds : List String)
    (rl rt mx my : ℚ)
    (hne : st.clipboard ≠ [])
    (hlen : freshIds.length = st.clipboard.length)
    (hsrc : (st.clipboard.map CanvasItem.id).Nodup)
    (hdisj : ∀ fid ∈ freshIds, fid ∉ st.clipboard.map CanvasItem.id) :
    ∃ pasted,
      (pasteItems freshIds rl rt mx my st).items = st.items ++ pasted ∧
      pasted.length = st.clipboard.length ∧
      ∀ i (hp : i < pasted.length) (hc : i < st.clipboard.length) e,
        (st.clipboard.get ⟨i, hc⟩).data = ItemData.editor e →
        ( (e.targetId = none → itemTargetId (pasted.get ⟨i, hp⟩).data = none) ∧
          (∀ t, e.targetId = some t → t ∉ st.clipboard.map CanvasItem.id →
              itemTargetId (pasted.get ⟨i, hp⟩).data = none) ∧
          (∀ t j (hj : j < st.clipboard.length) (hjf : j < freshIds.length),
              e.targetId = some t → (st.clipboard.get ⟨j, hj⟩).id = t →
              itemTargetId (pasted.get ⟨i, hp⟩).data = some (freshIds.get ⟨j, hjf⟩) ∧
              freshIds.get ⟨j, hjf⟩ ≠ t) ) := by
  refine ⟨pasteNewItems st.clipboard freshIds
      (pasteTranslation st.clipboard st.view rl rt mx my).1
      (pasteTranslation st.clipboard st.view rl rt mx my).2 st.topZ,
    pasteItems_items st freshIds rl rt mx my hne, ?_, ?_⟩
  · rw [pasteNewItems_length, List.length_zip, hlen, min_self]
  · intro i hp hc e hedit
    have hf : i < freshIds.length := by rw [hlen]; exact hc
    rw [pasteNewItems_get st.clipboard freshIds _ _ st.topZ i hp hc hf]
    have hdata : (pasteClone (pasteTranslation st.clipboard st.view rl rt mx my).1
        (pasteTranslation st.clipboard st.view rl rt mx my).2
        (st.clipboard.get ⟨i, hc⟩) (freshIds.get ⟨i, hf⟩)
        (st.topZ + i + 1)).data = ItemData.editor e := hedit
    rw [remapEditor_targetId _ _ e hdata]
    refine ⟨?_, ?_, ?_⟩
    · intro htid
      rw [htid]
      rfl
    · intro t htid hnotin
      rw [htid]
      have hkeys : t ∉ (List.map (fun p => (p.1.id, p.2))
          (st.clipboard.zip freshIds)).map Prod.fst := by
        rw [newIdsMap_fst st.clipboard freshIds hlen]
        exact hnotin
      simp only [Option.some_bind]
      exact mapGet_eq_none _ t hkeys
    · intro t j hj hjf htid hid
      have hzj : j < (st.clipboard.zip freshIds).length := by
        rw [List.length_zip]
        exact lt_min hj hjf
      have hmj : j < (List.map (fun p => (p.1.id, p.2))
          (st.clipboard.zip freshIds)).length := by
        rw [List.length_map]
        exact hzj
      have hgetm : (List.map (fun p => (p.1.id, p.2))
            (st.clipboard.zip freshIds)).get ⟨j, hmj⟩
          = ((st.clipboard.get ⟨j, hj⟩).id, freshIds.get ⟨j, hjf⟩) := by
        simp only [List.get_eq_getElem, List.getElem_map, List.getElem_zip]
      have hmem : ((st.clipboard.get ⟨j, hj⟩).id, freshIds.get ⟨j, hjf⟩)
          ∈ List.map (fun p => (p.1.id, p.2)) (st.clipboard.zip freshIds) := by
        rw [← hgetm]
        exact List.get_mem _ _ _
      have hkeysnodup : ((List.map (fun p => (p.1.id, p.2))
          (st.clipboard.zip freshIds)).map Prod.fst).Nodup := by
        rw [newIdsMap_fst st.clipboard freshIds hlen]
        exact hsrc
      rw [hid] at hmem
      have hsome := mapGet_eq_some _ t (freshIds.get ⟨j, hjf⟩) hkeysnodup hmem
      constructor
      · rw [htid]
        simp only [Option.some_bind]
        exact hsome
      · intro hcontra
        have hfmem : freshIds.get ⟨j, hjf⟩ ∈ freshIds := List.get_mem _ _ _
        have : freshIds.get ⟨j, hjf⟩ ∉ st.clipboard.map CanvasItem.id :=
          hdisj _ hfmem
        apply this
        rw [hcontra, ← hid]
        exact List.mem_map_of_mem CanvasItem.id (List.get_mem _ _ _)

/-- Witness for C4 at a concrete editor-plus-target clipboard. -/
theorem paste_targetRemap_c4_witness :
    ∃ pasted,
      (pasteItems ["n1", "n2"] 0 0 0 0 c4State).items = c4State.items ++ pasted ∧
      pasted.length = c4State.clipboard.length ∧
      ∀ i (hp : i < pasted.length) (hc : i < c4State.clipboard.length) e,
        (c4State.clipboard.get ⟨i, hc⟩).data = ItemData.editor e →
        ( (e.targetId = none → itemTargetId (pasted.get ⟨i, hp⟩).data = none) ∧
          (∀ t, e.targetId = some t → t ∉ c4State.clipboard.map CanvasItem.id →
              itemTargetId (pasted.get ⟨i, hp⟩).data = none) ∧
          (∀ t j (hj : j < c4State.clipboard.length) (hjf : j < List.length ["n1", "n2"]),
              e.targetId = some t → (c4State.clipboard.get ⟨j, hj⟩).id = t →
              itemTargetId (pasted.get ⟨i, hp⟩).data
                = some (List.get ["n1", "n2"] ⟨j, hjf⟩) ∧
              List.get ["n1", "n2"] ⟨j, hjf⟩ ≠ t) ) :=
  paste_targetRemap_c4 c4State ["n1", "n2"] 0 0 0 0 (by simp [c4State])
    (by simp [c4State]) (by simp [c4State]) (by simp [c4State])

lemma findItem_updateItemData (items : List CanvasItem) (id : String)
    (patch : ItemData → ItemData) :
    findItem (updateItemData id patch items) id
      = (findItem items id).map (fun it => { it with data := patch it.data }) := by
  induction items with
  | nil => rfl
  | cons it rest ih =>
      by_cases h : it.id = id
      · simp [updateItemData, findItem, List.find?_cons, h]
      · have hbeq : (it.id == id) = false := beq_eq_false_iff_ne.mpr h
        simp only [updateItemData, List.map_cons, hbeq, Bool.false_eq_true, if_false,
          findItem, List.find?_cons, hbeq] at ih ⊢
        exact ih

lemma updateItemData_length (items : List CanvasItem) (id : String)
    (patch : ItemData → ItemData) :
    (updateItemData id patch items).length = items.length :=
  List.length_map _ _

lemma executeGenerationStart_noTarget (st : CanvasState) (itemId : String)
    (it : CanvasItem) (e : EdData)
    (hfind : findItem st.items itemId = some it)
    (hdata : it.data = ItemData.editor e) (htid : e.targetId = none) :
    executeGenerationStart itemId true st
      = ({ st with items := genSyncFailItems itemId st.items },
         StartResult.failed "No target image selected") := by
  simp only [executeGenerationStart, hfind, hdata, htid]
  rfl

lemma executeGenerationStart_missingTarget (st : CanvasState) (itemId : String)
    (it : CanvasItem) (e : EdData) (t : String)
    (hfind : findItem st.items itemId = some it)
    (hdata : it.data = ItemData.editor e) (htid : e.targetId = some t)
    (hmiss : findItem st.items t = none) :
    executeGenerationStart itemId true st
      = ({ st with items := genSyncFailItems itemId st.items },
         StartResult.failed "Target image not found") := by
  simp only [executeGenerationStart, hfind, hdata, htid, hmiss]
  rfl

/-- Counterexample to claim C5: invoking generation on an editor with a
null targetId does fail with the stated message, but the item state is not
untouched — the flag is set on entry and cleared by the error handler, and
the progress value 100 is overwritten with 0. -/
theorem editorPrecondition_c5_cex :
    (executeGenerationStart "e1" true c5State).2
        = StartResult.failed "No target image selected" ∧
      editorFlags c5State.items "e1" = some (false, 100) ∧
      editorFlags (executeGenerationStart "e1" true c5State).1.items "e1"
        = some (false, 0) ∧
      ¬ editorFlags (executeGenerationStart "e1" true c5State).1.items "e1"
        = some (false, 100) := by
  refine ⟨?_, ?_, ?_, ?_⟩ <;>
    simp [executeGenerationStart, findItem, editorFlags, updateItemData,
      genStartPatch, genFailPatch, genCatch, c5State, c5Item, c5Ed]

/-- Claim C5, amended: invoking generation on an editor whose targetId is
null, or whose targetId matches no item in the store, fails before
submission with the message No target image selected, or Target image not
found, respectively, and no item is created; but the item is not left
untouched: its isGenerating flag is set at entry and cleared again by the
error handler, and its progress is reset to 0, overwriting the previous
value. (A targetId that resolves to any existing item, image-bearing or
not, passes the synchronous check.) -/
theorem editorPrecondition_c5_amended (st : CanvasState) (itemId : String)
    (it : CanvasItem) (e : EdData)
    (hfind : findItem st.items itemId = some it)
    (hdata : it.data = ItemData.editor e) :
    ( e.targetId = none →
        (executeGenerationStart itemId true st).2
            = StartResult.failed "No target image selected" ∧
          editorFlags (executeGenerationStart itemId true st).1.items itemId
            = some (false, 0) ∧
          (executeGenerationStart itemId true st).1.items.length
            = st.items.length ) ∧
      ( ∀ t, e.targetId = some t → findItem st.items t = none →
        (executeGenerationStart itemId true st).2
            = StartResult.failed "Target image not found" ∧
          editorFlags (executeGenerationStart itemId true st).1.items itemId
            = some (false, 0) ∧
          (executeGenerationStart itemId true st).1.items.length
            = st.items.length ) := by
  have hflags : editorFlags (genSyncFailItems itemId st.items) itemId
      = some (false, 0) := by
    have h1 : findItem (genSyncFailItems itemId st.items) itemId
        = some { it with data := genFailPatch (genStartPatch it.data) } := by
      rw [genSyncFailItems, findItem_updateItemData, findItem_updateItemData, hfind]
      rfl
    simp [editorFlags, h1, hdata, genStartPatch, genFailPatch]
  have hlen : (genSyncFailItems itemId st.items).length = st.items.length := by
    rw [genSyncFailItems, updateItemData_length, updateItemData_length]
  constructor
  · intro htid
    have heq := executeGenerationStart_noTarget st itemId it e hfind hdata htid
    rw [heq]
    exact ⟨rfl, hflags, hlen⟩
  · intro t htid hmiss
    have heq := executeGenerationStart_missingTarget st itemId it e t hfind hdata htid hmiss
    rw [heq]
    exact ⟨rfl, hflags, hlen⟩

/-- Witness for the amended C5 at the concrete `c5State`. -/
theorem editorPrecondition_c5_amended_witness :
    ( c5Ed.targetId = none →
        (executeGenerationStart "e1" true c5State).2
            = StartResult.failed "No target image selected" ∧
          editorFlags (executeGenerationStart "e1" true c5State).1.items "e1"
            = some (false, 0) ∧
          (executeGenerationStart "e1" true c5State).1.items.length
            = c5State.items.length ) ∧
      ( ∀ t, c5Ed.targetId = some t → findItem c5State.items t = none →
        (executeGenerationStart "e1" true c5State).2
            = StartResult.failed "Target image not found" ∧
          editorFlags (executeGenerationStart "e1" true c5State).1.items "e1"
            = some (false, 0) ∧
          (executeGenerationStart "e1" true c5State).1.items.length
            = c5State.items.length ) :=
  editorPrecondition_c5_amended c5State "e1" c5Item c5Ed (by rfl) rfl

lemma findItem_updateImageItem (items : List CanvasItem) (id : String)
    (patch : ImageData → ImageData) :
    findItem (updateImageItem id patch items) id
      = (findItem items id).map (fun it =>
          match it.data with
          | .image d => { it with data := .image (patch d) }
          | _ => it) := by
  induction items with
  | nil => rfl
  | cons it rest ih =>
      by_cases h : it.id = id
      · cases hd : it.data with
        | image d => simp [updateImageItem, findItem, List.find?_cons, h, hd]
        | generator g => simp [updateImageItem, findItem, List.find?_cons, h, hd]
        | editor e => simp [updateImageItem, findItem, List.find?_cons, h, hd]
      · have hbeq : (it.id == id) = false := beq_eq_false_iff_ne.mpr h
        cases hd : it.data with
        | image d =>
            simp only [updateImageItem, List.map_cons, hd, hbeq, Bool.false_eq_true,
              if_false, findItem, List.find?_cons] at ih ⊢
            simpa [updateImageItem, hd] using ih
        | generator g =>
            simp only [updateImageItem, List.map_cons, hd, findItem,
              List.find?_cons, hbeq] at ih ⊢
            simpa [updateImageItem, hd] using ih
        | editor e =>
            simp only [updateImageItem, List.map_cons, hd, findItem,
              List.find?_cons, hbeq] at ih ⊢
            simpa [updateImageItem, hd] using ih

lemma updateImageItem_length (items : List CanvasItem) (id : String)
    (patch : ImageData → ImageData) :
    (updateImageItem id patch items).length = items.length :=
  List.length_map _ _

lemma genTick_netError (snap : CanvasItem) (dW dH : ℚ) (fid : String) (z : Int)
    (st : CanvasState) :
    generationCheckStatus snap TickInput.netError dW dH fid z st
      = (genCatch snap.id st, false) := rfl

lemma genTick_errorStatus (snap : CanvasItem) (dW dH : ℚ) (fid : String) (z : Int)
    (st : CanvasState) (outputs : List (List String)) (parsed : ℚ) :
    generationCheckStatus snap (TickInput.response true "error" outputs parsed)
        dW dH fid z st
      = (genCatch snap.id st, false) := by
  have hns : ¬ ((true : Bool) = true ∧ ("error" : String) = "success") := by
    intro h
    exact absurd h.2 (by decide)
  have hes : ((true : Bool) = true ∧ ("error" : String) = "error") := ⟨rfl, rfl⟩
  rw [generationCheckStatus, if_neg hns, if_pos hes]

lemma editTick_netError (snap : CanvasItem) (fid : String) (z : Int)
    (st : CanvasState) :
    editCheckStatus snap TickInput.netError fid z st = (editCatch snap st, false) := rfl

lemma editTick_errorStatus (snap : CanvasItem) (fid : String) (z : Int)
    (st : CanvasState) (outputs : List (List String)) (parsed : ℚ) :
    editCheckStatus snap (TickInput.response true "error" outputs parsed) fid z st
      = (editCatch snap st, false) := by
  have hns : ¬ ((true : Bool) = true ∧ ("error" : String) = "success") := by
    intro h
    exact absurd h.2 (by decide)
  have hes : ((true : Bool) = true ∧ ("error" : String) = "error") := ⟨rfl, rfl⟩
  rw [editCheckStatus, if_neg hns, if_pos hes]

lemma editorFlags_genFail (items : List CanvasItem) (id : String) :
    editorFlags (updateItemData id genFailPatch items) id
      = (editorFlags items id).map (fun _ => (false, 0)) := by
  simp only [editorFlags, findItem_updateItemData]
  cases h : findItem items id with
  | none => rfl
  | some it =>
      cases hd : it.data with
      | image d => simp [genFailPatch, hd]
      | generator g => simp [genFailPatch, hd]
      | editor e => simp [genFailPatch, hd]

lemma generatorFlags_genFail (items : List CanvasItem) (id : String) :
    generatorFlags (updateItemData id genFailPatch items) id
      = (generatorFlags items id).map (fun _ => (false, 0)) := by
  simp only [generatorFlags, findItem_updateItemData]
  cases h : findItem items id with
  | none => rfl
  | some it =>
      cases hd : it.data with
      | image d => simp [genFailPatch, hd]
      | generator g => simp [genFailPatch, hd]
      | editor e => simp [genFailPatch, hd]

lemma editCatch_length (snap : CanvasItem) (st : CanvasState) :
    (editCatch snap st).items.length = st.items.length := by
  cases hsnap : snap.data with
  | image d => simp [editCatch, hsnap, updateImageItem_length]
  | generator g => simp [editCatch, hsnap, updateItemData_length]
  | editor e => simp [editCatch, hsnap, updateItemData_length]

lemma editCatch_findItem_image (snap : CanvasItem) (st : CanvasState)
    (dsnap : ImageData) (it : CanvasItem) (d : ImageData)
    (hsnap : snap.data = ItemData.image dsnap)
    (hfind : findItem st.items snap.id = some it)
    (hd : it.data = ItemData.image d) :
    findItem (editCatch snap st).items snap.id
      = some { it with data := ItemData.image { d with isEditing := false } } := by
  simp only [editCatch, hsnap]
  rw [findItem_updateImageItem, hfind]
  simp [hd]

lemma editCatch_findItem_generator (snap : CanvasItem) (st : CanvasState)
    (gsnap : GenData) (it : CanvasItem) (g : GenData)
    (hsnap : snap.data = ItemData.generator gsnap)
    (hfind : findItem st.items snap.id = some it)
    (hg : it.data = ItemData.generator g) :
    findItem (editCatch snap st).items snap.id
      = some { it with data := ItemData.generator { g with isEditing := false } } := by
  simp only [editCatch, hsnap]
  rw [findItem_updateItemData, hfind]
  simp [hg]

/-- Counterexample to claim C6: when the in-place edit session of an image
fails, the catch clears only the editing flag; editProgress stays at 40
instead of being reset to 0 as the claim demands for every variant. -/
theorem failureReset_c6_cex :
    (editCheckStatus c6Item TickInput.netError "f" 10 c6State).2 = false ∧
      editSession (editCheckStatus c6Item TickInput.netError "f" 10 c6State).1.items "i1"
        = some (false, some 40) ∧
      ¬ editSession (editCheckStatus c6Item TickInput.netError "f" 10 c6State).1.items "i1"
        = some (false, some 0) := by
  refine ⟨rfl, ?_, ?_⟩ <;>
    norm_num [editCheckStatus, editCatch, updateImageItem, findItem, editSession,
      c6State, c6Item, c6Img]

/-- Claim C6, amended: on every failing poll tick (thrown error or terminal
error status) the affected flag is cleared, no new item is created and no
further tick is scheduled, for every variant; the generation poll
additionally resets progress to 0, but the edit-session catch clears only
isEditing and leaves editProgress unchanged. -/
theorem failureReset_c6_amended (snap : CanvasItem) (dW dH parsed : ℚ)
    (fid : String) (z : Int) (st : CanvasState) (outputs : List (List String)) :
    ( (generationCheckStatus snap TickInput.netError dW dH fid z st).2 = false ∧
      (generationCheckStatus snap TickInput.netError dW dH fid z st).1.items.length
        = st.items.length ∧
      editorFlags (generationCheckStatus snap TickInput.netError dW dH fid z st).1.items
          snap.id
        = (editorFlags st.items snap.id).map (fun _ => (false, 0)) ∧
      generatorFlags (generationCheckStatus snap TickInput.netError dW dH fid z st).1.items
          snap.id
        = (generatorFlags st.items snap.id).map (fun _ => (false, 0)) ) ∧
    ( (generationCheckStatus snap (TickInput.response true "error" outputs parsed)
          dW dH fid z st).2 = false ∧
      (generationCheckStatus snap (TickInput.response true "error" outputs parsed)
          dW dH fid z st).1.items.length = st.items.length ∧
      editorFlags (generationCheckStatus snap
          (TickInput.response true "error" outputs parsed) dW dH fid z st).1.items snap.id
        = (editorFlags st.items snap.id).map (fun _ => (false, 0)) ∧
      generatorFlags (generationCheckStatus snap
          (TickInput.response true "error" outputs parsed) dW dH fid z st).1.items snap.id
        = (generatorFlags st.items snap.id).map (fun _ => (false, 0)) ) ∧
    ( (editCheckStatus snap TickInput.netError fid z st).2 = false ∧
      (editCheckStatus snap TickInput.netError fid z st).1.items.length
        = st.items.length ∧
      (∀ dsnap it d, snap.data = ItemData.image dsnap →
        findItem st.items snap.id = some it → it.data = ItemData.image d →
        findItem (editCheckStatus snap TickInput.netError fid z st).1.items snap.id
          = some { it with data := ItemData.image { d with isEditing := false } }) ∧
      (∀ gsnap it g, snap.data = ItemData.generator gsnap →
        findItem st.items snap.id = some it → it.data = ItemData.generator g →
        findItem (editCheckStatus snap TickInput.netError fid z st).1.items snap.id
          = some { it with data := ItemData.generator { g with isEditing := false } }) ) ∧
    ( (editCheckStatus snap (TickInput.response true "error" outputs parsed) fid z st).2
        = false ∧
      (editCheckStatus snap (TickInput.response true "error" outputs parsed)
          fid z st).1.items.length = st.items.length ∧
      (∀ dsnap it d, snap.data = ItemData.image dsnap →
        findItem st.items snap.id = some it → it.data = ItemData.image d →
        findItem (editCheckStatus snap (TickInput.response true "error" outputs parsed)
            fid z st).1.items snap.id
          = some { it with data := ItemData.image { d with isEditing := false } }) ∧
      (∀ gsnap it g, snap.data = ItemData.generator gsnap →
        findItem st.items snap.id = some it → it.data = ItemData.generator g →
        findItem (editCheckStatus snap (TickInput.response true "error" outputs parsed)
            fid z st).1.items snap.id
          = some { it with data := ItemData.generator { g with isEditing := false } }) ) := by
  refine ⟨⟨rfl, ?_, ?_, ?_⟩, ?_, ⟨rfl, ?_, ?_, ?_⟩, ?_⟩
  · exact updateItemData_length _ _ _
  · exact editorFlags_genFail _ _
  · exact generatorFlags_genFail _ _
  · rw [genTick_errorStatus]
    exact ⟨rfl, updateItemData_length _ _ _, editorFlags_genFail _ _,
      generatorFlags_genFail _ _⟩
  · exact editCatch_length _ _
  · intro dsnap it d hsnap hfind hd
    exact editCatch_findItem_image snap st dsnap it d hsnap hfind hd
  · intro gsnap it g hsnap hfind hg
    exact editCatch_findItem_generator snap st gsnap it g hsnap hfind hg
  · rw [editTick_errorStatus]
    refine ⟨rfl, editCatch_length _ _, ?_, ?_⟩
    · intro dsnap it d hsnap hfind hd
      exact editCatch_findItem_image snap st dsnap it d hsnap hfind hd
    · intro gsnap it g hsnap hfind hg
      exact editCatch_findItem_generator snap st gsnap it g hsnap hfind hg

/-- Witness for the amended C6: the image edit session of `c6State` after a
failing tick has its flag cleared with editProgress carried over. -/
theorem failureReset_c6_amended_witness :
    findItem (editCheckStatus c6Item TickInput.netError "f" 10 c6State).1.items "i1"
      = some { c6Item with data := ItemData.image { c6Img with isEditing := false } } :=
  (failureReset_c6_amended c6Item 0 0 0 "f" 10 c6State []).2.2.1.2.2.1
    c6Img c6Item c6Img rfl (by rfl) rfl

/-- Claim C1 is violated by the code: after the polled editor item was
deleted, a non-terminal tick leaves the store unchanged but still schedules
the next tick instead of terminating, and the terminal success tick appends
a brand-new image item whose parentId is the deleted id — the poll body
never checks that the id is still present in the store. -/
theorem orphanPollInsertsResult_c1 :
    ( (generationCheckStatus c1Snap (TickInput.response false "" [] 0)
          800 600 "n1" 10 c1State).1.items = c1State.items ∧
      (generationCheckStatus c1Snap (TickInput.response false "" [] 0)
          800 600 "n1" 10 c1State).2 = true ) ∧
    ( (generationCheckStatus c1Snap (TickInput.response true "success" [["u"]] 0)
          800 600 "n1" 10 c1State).1.items.length = c1State.items.length + 1 ∧
      ((generationCheckStatus c1Snap (TickInput.response true "success" [["u"]] 0)
          800 600 "n1" 10 c1State).1.items.getLast?).map CanvasItem.parentId
        = some (some "e1") ) := by
  refine ⟨⟨?_, rfl⟩, ?_, ?_⟩ <;>
    norm_num [generationCheckStatus, firstOutputImage, updateItemData, genDonePatch,
      setProgressPatch, c1State, c1Snap, c1Ed, c1Bystander]

/-- Claim C2 is violated by the code: the fallback progress increment reads
the submit-time snapshot (a stale closure), not the previous tick, so two
consecutive no-parse ticks both set progress to snapshot+2 = 2 (even
regressing from the live value 10) instead of increasing to 12 then 14 —
the displayed progress holds at one fixed number. -/
theorem progressStallsAtSnapshot_c2 :
    editorFlags (generationCheckStatus c2Snap (TickInput.response false "" [] 0)
        0 0 "n1" 10 c2State).1.items "e2" = some (true, 2) ∧
    editorFlags (generationCheckStatus c2Snap (TickInput.response false "" [] 0)
        0 0 "n1" 10
        (generationCheckStatus c2Snap (TickInput.response false "" [] 0)
          0 0 "n1" 10 c2State).1).1.items "e2" = some (true, 2) ∧
    ¬ editorFlags (generationCheckStatus c2Snap (TickInput.response false "" [] 0)
        0 0 "n1" 10
        (generationCheckStatus c2Snap (TickInput.response false "" [] 0)
          0 0 "n1" 10 c2State).1).1.items "e2" = some (true, 4) := by
  refine ⟨?_, ?_, ?_⟩ <;>
    norm_num [generationCheckStatus, editorFlags, findItem, updateItemData,
      setProgressPatch, dataProgress, min_def, c2State, c2Snap, c2Ed]

-- ### Claim C10

lemma updateImageItem_append_fresh (id : String) (p : ImageData → ImageData)
    (l : List CanvasItem) (a : CanvasItem) (h : (a.id == id) = false) :
    updateImageItem id p (l ++ [a]) = updateImageItem id p l ++ [a] := by
  unfold updateImageItem
  rw [List.map_append]
  congr 1
  have hne : a.id ≠ id := beq_eq_false_iff_ne.mp h
  cases hd : a.data <;> simp [hd, h, hne]

lemma updateItemData_append_fresh (id : String) (p : ItemData → ItemData)
    (l : List CanvasItem) (a : CanvasItem) (h : (a.id == id) = false) :
    updateItemData id p (l ++ [a]) = updateItemData id p l ++ [a] := by
  unfold updateItemData
  rw [List.map_append]
  congr 1
  have hne : a.id ≠ id := beq_eq_false_iff_ne.mp h
  simp [h, hne]

/-- Claim C10: the image item spawned by a terminal-success tick of the
edit poll, and by the editor branch of the generation poll, is positioned,
sized and parent-linked from the submit-time snapshot closure, for every
current store content — moving or resizing the source between submission
and completion does not change the spawned fields. -/
theorem spawnSnapshot_c10 (snap : CanvasItem) (st : CanvasState)
    (outputs : List (List String)) (parsed dW dH : ℚ) (url fid : String)
    (z : Int) (himg : firstOutputImage outputs = some url)
    (hfid : fid ≠ snap.id) :
    ( ∃ pre,
        (editCheckStatus snap (TickInput.response true "success" outputs parsed)
            fid z st).1.items
          = pre ++ [{ id := fid, x := snap.x + snap.width + 40, y := snap.y,
                      width := snap.width, height := snap.height, zIndex := z + 2,
                      parentId := some snap.id,
                      data := ItemData.image { src := url, editPrompt := none,
                                               isEditing := false,
                                               editProgress := none } }] ∧
        pre.length = st.items.length ) ∧
    ( ∀ e, snap.data = ItemData.editor e →
      ∃ pre,
        (generationCheckStatus snap (TickInput.response true "success" outputs parsed)
            dW dH fid z st).1.items
          = pre ++ [{ id := fid, x := snap.x + snap.width + 50, y := snap.y,
                      width := dW / 2, height := dH / 2, zIndex := z + 2,
                      parentId := some snap.id,
                      data := ItemData.image { src := url, editPrompt := none,
                                               isEditing := false,
                                               editProgress := none } }] ∧
        pre.length = st.items.length ) := by
  have hbeq : (fid == snap.id) = false := beq_eq_false_iff_ne.mpr hfid
  have hcond : ((true : Bool) = true ∧ ("success" : String) = "success") := ⟨rfl, rfl⟩
  constructor
  · rw [editCheckStatus, if_pos hcond, himg]
    cases hsnap : snap.data with
    | image d =>
        refine ⟨updateImageItem snap.id editDoneImagePatch st.items, ?_,
          updateImageItem_length _ _ _⟩
        simp only [hsnap]
        exact updateImageItem_append_fresh _ _ _ _ hbeq
    | generator g =>
        refine ⟨updateItemData snap.id editDonePatch st.items, ?_,
          updateItemData_length _ _ _⟩
        simp only [hsnap]
        exact updateItemData_append_fresh _ _ _ _ hbeq
    | editor e =>
        refine ⟨updateItemData snap.id editDonePatch st.items, ?_,
          updateItemData_length _ _ _⟩
        simp only [hsnap]
        exact updateItemData_append_fresh _ _ _ _ hbeq
  · intro e hsnap
    rw [generationCheckStatus, if_pos hcond, himg]
    refine ⟨updateItemData snap.id genDonePatch st.items, ?_,
      updateItemData_length _ _ _⟩
    simp only [hsnap]
    exact updateItemData_append_fresh _ _ _ _ hbeq

/-- Witness for C10 at the concrete orphan-poll inputs of claim C1. -/
theorem spawnSnapshot_c10_witness :
    ( ∃ pre,
        (editCheckStatus c1Snap (TickInput.response true "success" [["u"]] 0)
            "n1" 10 emptyState).1.items
          = pre ++ [{ id := "n1", x := c1Snap.x + c1Snap.width + 40, y := c1Snap.y,
                      width := c1Snap.width, height := c1Snap.height, zIndex := 12,
                      parentId := some c1Snap.id,
                      data := ItemData.image { src := "u", editPrompt := none,
                                               isEditing := false,
                                               editProgress := none } }] ∧
        pre.length = emptyState.items.length ) ∧
    ( ∀ e, c1Snap.data = ItemData.editor e →
      ∃ pre,
        (generationCheckStatus c1Snap (TickInput.response true "success" [["u"]] 0)
            800 600 "n1" 10 emptyState).1.items
          = pre ++ [{ id := "n1", x := c1Snap.x + c1Snap.width + 50, y := c1Snap.y,
                      width := 800 / 2, height := 600 / 2, zIndex := 12,
                      parentId := some c1Snap.id,
                      data := ItemData.image { src := "u", editPrompt := none,
                                               isEditing := false,
                                               editProgress := none } }] ∧
        pre.length = emptyState.items.length ) :=
  spawnSnapshot_c10 c1Snap emptyState [["u"]] 0 800 600 "u" "n1" 10 rfl (by decide)

end InfiniteCanvas
